import Mathlib

/-!
Verification of the neutrino checkbox widget (src/widgets/checkbox.rs).

The widget is embedded shallowly: the `CheckBox` struct becomes a Lean
structure, the consuming-builder methods become functions returning a new
record, and the two stateful entry points `trigger` / `on_update` become
functions from the old state to a result record that carries the new state,
the list of calls made into the `Listener` capability, and a `panicked` flag.
`panicked = true` models a Rust panic — the abrupt termination produced by
indexing a `HashMap` at a missing key or by `.parse().unwrap()` on a bad
string — as opposed to a recoverable error value returned to the caller.
The `state` carried alongside `panicked = true` is the widget state at the
moment the panic is raised, which records any field already overwritten
before the panicking expression ran.
-/

namespace Neutrino

/-- Modelled from the spec: the `Event` enum lives in utils/event.rs, which is
not under src/. Its variants per the spec: `Update` (no payload, broadcast),
`Change` (source widget name and an opaque string value), and further
interaction kinds that are inert for a given widget, collapsed here into a
single `Other` variant matching the catch-all arm of `trigger`. -/
inductive Event where
  | Update : Event
  | Change (source : String) (value : String) : Event
  | Other : Event
deriving DecidableEq

/-- One call made by the widget into its `Listener` capability (the trait in
utils/listener.rs offers `on_click()` and `on_change(value)`). -/
inductive ListenerCall where
  | onClick : ListenerCall
  | onChange (value : String) : ListenerCall
deriving DecidableEq

/-- Modelled from the spec: the `Observer` trait (utils/observer.rs, not under
src/) is a capability whose `observe()` synchronously returns a snapshot
`mapping<string, string>`; since it is side-effect-free from the widget's
perspective, an observer is embedded as the snapshot it returns. -/
abbrev Observer := List (String × String)

/-- Lookup of a key in the snapshot mapping. Rust's `hash[key]` panics when the
key is missing; the `none` result here is turned into a panic at the use
sites in `on_update`. -/
def lookupKey : List (String × String) → String → Option String
  | [], _ => none
  | (k, v) :: rest, key => if k = key then some v else lookupKey rest key

/-- Rust's `str::parse::<bool>()`: accepts exactly the strings true and false. -/
def parseBool (s : String) : Option Bool :=
  if s = "true" then some true
  else if s = "false" then some false
  else none

/-- The `CheckBox` struct of src/widgets/checkbox.rs. The boxed trait objects
are embedded by what the claims observe of them: the listener by its
presence (its calls are logged by `trigger`), the observer by its snapshot. -/
structure CheckBox where
  name : String
  checked : Bool
  text : String
  listener : Option Unit
  observer : Option Observer
  stretch : String
deriving DecidableEq

/-- `CheckBox::new`: default values per the source. -/
def CheckBox.new (name : String) : CheckBox :=
  { name := name
    checked := false
    text := "CheckBox"
    listener := none
    observer := none
    stretch := "" }

/-- `CheckBox::checked` builder (named `setChecked` because the field
projection already takes the source name). -/
def CheckBox.setChecked (self : CheckBox) (checked : Bool) : CheckBox :=
  { name := self.name
    checked := checked
    text := self.text
    listener := self.listener
    observer := self.observer
    stretch := self.stretch }

/-- `CheckBox::text` builder (named `setText`, see `setChecked`). -/
def CheckBox.setText (self : CheckBox) (text : String) : CheckBox :=
  { name := self.name
    checked := self.checked
    text := text
    listener := self.listener
    observer := self.observer
    stretch := self.stretch }

/-- `CheckBox::listener` builder. -/
def CheckBox.setListener (self : CheckBox) (listener : Unit) : CheckBox :=
  { name := self.name
    checked := self.checked
    text := self.text
    listener := some listener
    observer := self.observer
    stretch := self.stretch }

/-- `CheckBox::observer` builder. -/
def CheckBox.setObserver (self : CheckBox) (observer : Observer) : CheckBox :=
  { name := self.name
    checked := self.checked
    text := self.text
    listener := self.listener
    observer := some observer
    stretch := self.stretch }

/-- `CheckBox::stretch` builder. -/
def CheckBox.setStretch (self : CheckBox) : CheckBox :=
  { name := self.name
    checked := self.checked
    text := self.text
    listener := self.listener
    observer := self.observer
    stretch := "stretch" }

/-- The single-quote character, used for the JS empty-string literal that
`eval` passes as the value of the synthesized change event. -/
def singleQuote : String := String.singleton (Char.ofNat 39)

/-- Modelled from the spec: `Event::change_js` (utils/event.rs, not under
src/) renders the interaction-attribute text that makes the runtime deliver
`Change(source, value)` back into `trigger`; the spec fixes only that role,
so it is embedded as a plain injection of both arguments into the text. -/
def Event.change_js (source value : String) : String :=
  "invoke(change," ++ source ++ "," ++ value ++ ")"

/-- The `let checked = if self.checked then checked-token else empty` binding
at the top of `CheckBox::eval`. -/
def checkedClass (b : Bool) : String := if b then "checked" else ""

/-- `CheckBox::eval`: the format string of the source with its holes filled in
order (stretch, change_js, checked, checked, text). -/
def CheckBox.eval (self : CheckBox) : String :=
  "<div class=\"checkbox " ++ self.stretch ++ "\" onmousedown=\"" ++
    Event.change_js self.name (singleQuote ++ singleQuote) ++
    "\"><div class=\"checkbox-outer " ++ checkedClass self.checked ++
    "\"><div class=\"checkbox-inner " ++ checkedClass self.checked ++
    "\"></div></div><label>" ++ self.text ++ "</label></div>"

/-- Result of `on_update`: the state after the call together with whether the
call panicked; on a panic the state is the one at the moment of the panic. -/
structure UpdateResult where
  state : CheckBox
  panicked : Bool
deriving DecidableEq

/-- `CheckBox::on_update`: with no observer, do nothing; otherwise take the
snapshot, overwrite `text` from `hash[text-key]` (panicking if the key is
missing), then overwrite `checked` from `hash[checked-key].parse().unwrap()`
(panicking if the key is missing or the value does not parse as a boolean).
The assignment to `text` happens before either of the two panics of the
second statement can fire, exactly as in the source. -/
def CheckBox.on_update (self : CheckBox) : UpdateResult :=
  match self.observer with
  | none => { state := self, panicked := false }
  | some hash =>
    match lookupKey hash "text" with
    | none => { state := self, panicked := true }
    | some t =>
      let self1 := { self with text := t }
      match lookupKey hash "checked" with
      | none => { state := self1, panicked := true }
      | some c =>
        match parseBool c with
        | none => { state := self1, panicked := true }
        | some b => { state := { self1 with checked := b }, panicked := false }

/-- Result of `trigger`: the state after the call, the listener calls made
during it, and whether it panicked (only possible through the `Update`
path, which delegates to `on_update`). -/
structure TriggerResult where
  state : CheckBox
  calls : List ListenerCall
  panicked : Bool
deriving DecidableEq

/-- `CheckBox::trigger`: `Update` delegates to `on_update`; a `Change` whose
source equals the widget's name toggles `checked` and then, if a listener
is present, calls `on_change(value)`; any other event is ignored. -/
def CheckBox.trigger (self : CheckBox) (event : Event) : TriggerResult :=
  match event with
  | Event.Update =>
    let r := self.on_update
    { state := r.state, calls := [], panicked := r.panicked }
  | Event.Change source value =>
    if source = self.name then
      let self1 := { self with checked := !self.checked }
      match self.listener with
      | none => { state := self1, calls := [], panicked := false }
      | some _ =>
        { state := self1, calls := [ListenerCall.onChange value], panicked := false }
    else
      { state := self, calls := [], panicked := false }
  | Event.Other => { state := self, calls := [], panicked := false }

/-- A snapshot on which `on_update` must fail: the text key is missing, or the
checked key is missing, or the checked value does not parse as a boolean. -/
def badSnapshot (obs : Observer) : Bool :=
  (lookupKey obs "text").isNone ||
    (match lookupKey obs "checked" with
     | none => true
     | some c => (parseBool c).isNone)

/-- C2: for a checkbox with no observer, triggering a `Change` whose source is
the checkbox's own name negates `checked` (flips it exactly once) and leaves
`text` unchanged. -/
theorem change_matching_toggles_once (cb : CheckBox) (v : String)
    (h : cb.observer = none) :
    (cb.trigger (Event.Change cb.name v)).state.checked = !cb.checked ∧
    (cb.trigger (Event.Change cb.name v)).state.text = cb.text := by
  cases hl : cb.listener <;> simp [CheckBox.trigger, hl]

/-- Witness for C2 at the checkbox named cb1 with the default state. -/
theorem change_matching_toggles_once_witness :
    (CheckBox.new "cb1").observer = none ∧
    (((CheckBox.new "cb1").trigger
        (Event.Change (CheckBox.new "cb1").name "v")).state.checked =
      !(CheckBox.new "cb1").checked ∧
     ((CheckBox.new "cb1").trigger
        (Event.Change (CheckBox.new "cb1").name "v")).state.text =
      (CheckBox.new "cb1").text) :=
  ⟨rfl, change_matching_toggles_once (CheckBox.new "cb1") "v" rfl⟩

/-- C3: triggering a `Change` whose source differs from the checkbox's name is
a complete no-op: the state is exactly the old one (every field) and no
listener method is invoked. -/
theorem change_mismatched_noop (cb : CheckBox) (m v : String)
    (h : m ≠ cb.name) :
    cb.trigger (Event.Change m v) =
      { state := cb, calls := [], panicked := false } := by
  simp [CheckBox.trigger, h]

/-- Witness for C3 at the checkbox named cb1 and the source other. -/
theorem change_mismatched_noop_witness :
    ("other" ≠ (CheckBox.new "cb1").name) ∧
    (CheckBox.new "cb1").trigger (Event.Change "other" "v") =
      { state := CheckBox.new "cb1", calls := [], panicked := false } :=
  ⟨by decide, change_mismatched_noop (CheckBox.new "cb1") "other" "v" (by decide)⟩

/-- C7: the `checked` and `text` builder setters commute: applying them to a
fresh checkbox in either order yields the same state in every field. -/
theorem builder_setters_commute (name s : String) (b : Bool) :
    ((CheckBox.new name).setChecked b).setText s =
      ((CheckBox.new name).setText s).setChecked b := rfl

/-- Case analysis on `on_update`: on every run, with or without a panic, the
`name` and `stretch` fields of the resulting state are the old ones. -/
theorem on_update_keeps_name_stretch (cb : CheckBox) :
    cb.on_update.state.name = cb.name ∧
    cb.on_update.state.stretch = cb.stretch := by
  rcases ho : cb.observer with _ | hash
  · simp [CheckBox.on_update, ho]
  · rcases ht : lookupKey hash "text" with _ | t
    · simp [CheckBox.on_update, ho, ht]
    · rcases hc : lookupKey hash "checked" with _ | c
      · simp [CheckBox.on_update, ho, ht, hc]
      · rcases hb : parseBool c with _ | b <;>
          simp [CheckBox.on_update, ho, ht, hc, hb]

/-- C8: `name` and `stretch` are immutable after construction: every `trigger`
(of any event) and every `on_update` leaves both fields unchanged, even on
the runs that panic. -/
theorem name_stretch_immutable (cb : CheckBox) (e : Event) :
    (cb.trigger e).state.name = cb.name ∧
    (cb.trigger e).state.stretch = cb.stretch ∧
    cb.on_update.state.name = cb.name ∧
    cb.on_update.state.stretch = cb.stretch := by
  have hu := on_update_keeps_name_stretch cb
  refine ⟨?_, ?_, hu.1, hu.2⟩ <;>
  · cases e with
    | Update => simp [CheckBox.trigger, hu.1, hu.2]
    | Change source value =>
      by_cases hs : source = cb.name <;>
        cases hl : cb.listener <;> simp [CheckBox.trigger, hs, hl]
    | Other => rfl

/-- C9: `trigger` never invokes the listener's `on_click` on any event: on
every run the list of listener calls is either empty or a single
`on_change` call, so an `on_click` implementation installed on a checkbox
is dead code. -/
theorem listener_onclick_dead (cb : CheckBox) (e : Event) :
    (cb.trigger e).calls = [] ∨
    ∃ v, (cb.trigger e).calls = [ListenerCall.onChange v] := by
  cases e with
  | Update => exact Or.inl rfl
  | Change source value =>
    by_cases hs : source = cb.name
    · cases hl : cb.listener with
      | none => exact Or.inl (by simp [CheckBox.trigger, hs, hl])
      | some l => exact Or.inr ⟨value, by simp [CheckBox.trigger, hs, hl]⟩
    · exact Or.inl (by simp [CheckBox.trigger, hs])
  | Other => exact Or.inl rfl

/-- C10: toggling is an involution: with no observer installed, delivering the
same matching `Change` event twice returns the entire widget state (every
field) to its value before the first delivery. -/
theorem change_matching_involution (cb : CheckBox) (v : String)
    (h : cb.observer = none) :
    ((cb.trigger (Event.Change cb.name v)).state.trigger
        (Event.Change cb.name v)).state = cb := by
  obtain ⟨name, checked, text, listener, observer, stretch⟩ := cb
  cases listener <;> simp [CheckBox.trigger]

/-- C4: `eval` is a pure function of the state, hence deterministic (equal
states render to equal markup, and the embedding gives it no way to mutate
anything), and the rendered output decomposes around the checkbox-outer and
checkbox-inner elements, both of whose class attributes end with the token
`checkedClass self.checked`, which equals the checked token exactly when
the `checked` field is true. -/
theorem eval_pure_checked_token (cb cb' : CheckBox) (h : cb = cb') :
    cb.eval = cb'.eval ∧
    (∃ pre post,
      cb.eval =
        pre ++
          ("\"><div class=\"checkbox-outer " ++ checkedClass cb.checked ++
            "\"><div class=\"checkbox-inner " ++ checkedClass cb.checked) ++
          post) ∧
    (checkedClass cb.checked = "checked" ↔ cb.checked = true) := by
  subst h
  refine ⟨rfl,
    ⟨"<div class=\"checkbox " ++ cb.stretch ++ "\" onmousedown=\"" ++
        Event.change_js cb.name (singleQuote ++ singleQuote),
      "\"></div></div><label>" ++ cb.text ++ "</label></div>", ?_⟩, ?_⟩
  · simp [CheckBox.eval, String.append_assoc]
  · cases hb : cb.checked <;> simp [checkedClass]

/-- Witness for C4 at a checked checkbox named cb1. -/
theorem eval_pure_checked_token_witness :
    ((CheckBox.new "cb1").setChecked true).eval =
        ((CheckBox.new "cb1").setChecked true).eval ∧
    (∃ pre post,
      ((CheckBox.new "cb1").setChecked true).eval =
        pre ++
          ("\"><div class=\"checkbox-outer " ++
            checkedClass ((CheckBox.new "cb1").setChecked true).checked ++
            "\"><div class=\"checkbox-inner " ++
            checkedClass ((CheckBox.new "cb1").setChecked true).checked) ++
          post) ∧
    (checkedClass ((CheckBox.new "cb1").setChecked true).checked = "checked" ↔
      ((CheckBox.new "cb1").setChecked true).checked = true) :=
  eval_pure_checked_token ((CheckBox.new "cb1").setChecked true)
    ((CheckBox.new "cb1").setChecked true) rfl

/-- C5: with a listener installed, a `Change` whose source is the checkbox's
name produces exactly one listener call, `on_change` with the event's value
unmodified; a `Change` with a different source, an `Update`, or any other
event variant produces no listener call. -/
theorem listener_onchange_exactly (cb : CheckBox) (m v : String)
    (hl : cb.listener = some ()) :
    (cb.trigger (Event.Change cb.name v)).calls = [ListenerCall.onChange v] ∧
    (m ≠ cb.name → (cb.trigger (Event.Change m v)).calls = []) ∧
    (cb.trigger Event.Update).calls = [] ∧
    (cb.trigger Event.Other).calls = [] := by
  refine ⟨by simp [CheckBox.trigger, hl],
    fun hm => by simp [CheckBox.trigger, hm], rfl, rfl⟩

/-- Witness for C5 at a checkbox named cb1 with a listener installed. -/
theorem listener_onchange_exactly_witness :
    ((CheckBox.new "cb1").setListener ()).listener = some () ∧
    ((((CheckBox.new "cb1").setListener ()).trigger
        (Event.Change ((CheckBox.new "cb1").setListener ()).name "v")).calls =
      [ListenerCall.onChange "v"] ∧
     ("other" ≠ ((CheckBox.new "cb1").setListener ()).name →
       (((CheckBox.new "cb1").setListener ()).trigger
          (Event.Change "other" "v")).calls = []) ∧
     (((CheckBox.new "cb1").setListener ()).trigger Event.Update).calls = [] ∧
     (((CheckBox.new "cb1").setListener ()).trigger Event.Other).calls = []) :=
  ⟨rfl, listener_onchange_exactly ((CheckBox.new "cb1").setListener ())
    "other" "v" rfl⟩

/-- C6: with an observer whose snapshot has both required keys and a parseable
checked value, `on_update` overwrites exactly `text` and `checked` with the
snapshot values (and does not panic); with no observer it changes nothing. -/
theorem on_update_overwrites_from_snapshot (cb : CheckBox) :
    (∀ obs t c b, cb.observer = some obs →
        lookupKey obs "text" = some t →
        lookupKey obs "checked" = some c →
        parseBool c = some b →
        cb.on_update =
          { state := { cb with text := t, checked := b }, panicked := false }) ∧
    (cb.observer = none →
      cb.on_update = { state := cb, panicked := false }) := by
  constructor
  · intro obs t c b ho ht hc hb
    simp [CheckBox.on_update, ho, ht, hc, hb]
  · intro ho
    simp [CheckBox.on_update, ho]

/-- Witness for C6 at a checkbox named cb1 observing a well-formed snapshot. -/
theorem on_update_overwrites_from_snapshot_witness :
    ((CheckBox.new "cb1").setObserver
        [("text", "Yes"), ("checked", "true")]).on_update =
      { state :=
          { name := "cb1", checked := true, text := "Yes", listener := none,
            observer := some [("text", "Yes"), ("checked", "true")],
            stretch := "" },
        panicked := false } :=
  (on_update_overwrites_from_snapshot _).1
    [("text", "Yes"), ("checked", "true")] "Yes" "true" true rfl rfl rfl rfl

/-- C1 counterexample: with an observer whose snapshot contains only the text
key (the spec's scenario of a missing checked key), `on_update` panics — an
abrupt termination, with no recoverable error value — and the state at the
panic already has `text` overwritten, so the prior state is not left
unchanged. -/
theorem observer_missing_key_counterexample :
    (((CheckBox.new "cb1").setObserver [("text", "Yes")]).on_update).panicked =
        true ∧
    (((CheckBox.new "cb1").setObserver [("text", "Yes")]).on_update).state.text ≠
      ((CheckBox.new "cb1").setObserver [("text", "Yes")]).text := by
  exact ⟨rfl, by decide⟩

/-- C1 amended: on a snapshot missing a required key or whose checked value
does not parse as a boolean, `on_update` panics — modelling the process-
terminating index/unwrap panic of the source — rather than returning a
recoverable error; `name`, `checked` and `stretch` are unchanged at the
panic, and the state at the panic is the prior state when the text key is
missing, but has `text` already overwritten when the text key is present. -/
theorem on_update_bad_snapshot_panics (cb : CheckBox) (obs : Observer)
    (hobs : cb.observer = some obs) (hbad : badSnapshot obs = true) :
    cb.on_update.panicked = true ∧
    cb.on_update.state.checked = cb.checked ∧
    cb.on_update.state.name = cb.name ∧
    cb.on_update.state.stretch = cb.stretch ∧
    ((lookupKey obs "text" = none ∧ cb.on_update.state = cb) ∨
      (∃ t, lookupKey obs "text" = some t ∧
        cb.on_update.state = { cb with text := t })) := by
  rcases ht : lookupKey obs "text" with _ | t
  · simp [CheckBox.on_update, hobs, ht]
  · rcases hc : lookupKey obs "checked" with _ | c
    · simp [CheckBox.on_update, hobs, ht, hc]
    · rcases hb : parseBool c with _ | b
      · simp [CheckBox.on_update, hobs, ht, hc, hb]
      · exfalso
        simp [badSnapshot, ht, hc, hb] at hbad

/-- Witness for the amended C1 at a checkbox named cb1 whose observer snapshot
is missing the checked key. -/
theorem on_update_bad_snapshot_panics_witness :
    ((CheckBox.new "cb1").setObserver [("text", "Yes")]).observer =
        some [("text", "Yes")] ∧
    badSnapshot [("text", "Yes")] = true ∧
    (((CheckBox.new "cb1").setObserver [("text", "Yes")]).on_update.panicked =
        true ∧
     ((CheckBox.new "cb1").setObserver
        [("text", "Yes")]).on_update.state.checked =
        ((CheckBox.new "cb1").setObserver [("text", "Yes")]).checked ∧
     ((CheckBox.new "cb1").setObserver [("text", "Yes")]).on_update.state.name =
        ((CheckBox.new "cb1").setObserver [("text", "Yes")]).name ∧
     ((CheckBox.new "cb1").setObserver
        [("text", "Yes")]).on_update.state.stretch =
        ((CheckBox.new "cb1").setObserver [("text", "Yes")]).stretch ∧
     ((lookupKey [("text", "Yes")] "text" = none ∧
        ((CheckBox.new "cb1").setObserver [("text", "Yes")]).on_update.state =
          (CheckBox.new "cb1").setObserver [("text", "Yes")]) ∨
      (∃ t, lookupKey [("text", "Yes")] "text" = some t ∧
        ((CheckBox.new "cb1").setObserver [("text", "Yes")]).on_update.state =
          { (CheckBox.new "cb1").setObserver [("text", "Yes")] with
              text := t }))) :=
  ⟨rfl, by decide,
    on_update_bad_snapshot_panics ((CheckBox.new "cb1").setObserver
      [("text", "Yes")]) [("text", "Yes")] rfl (by decide)⟩

/-- Witness for C10 at the checkbox named cb1 with the default state. -/
theorem change_matching_involution_witness :
    (CheckBox.new "cb1").observer = none ∧
    (((CheckBox.new "cb1").trigger
        (Event.Change (CheckBox.new "cb1").name "v")).state.trigger
        (Event.Change (CheckBox.new "cb1").name "v")).state =
      CheckBox.new "cb1" :=
  ⟨rfl, change_matching_involution (CheckBox.new "cb1") "v" rfl⟩

end Neutrino
